import Mathlib

/-!
Shallow embedding of the ctbal integration scripts
(`scripts/ctbal-scrape-integration.py`, `scripts/add-processed-csvs-to-queue.py`,
`scripts/add-all-new-csvs.py`).

Pure string/list manipulation is translated directly; the external world
(subprocess invocations of the npm queue commands, directory listings, the
process-wide current working directory) is made explicit: directory contents
are passed in as lists of file names, subprocess execution is a function from
the issued invocation (command line and working directory) to its observed
result, and the current working directory is threaded as explicit state.
-/

namespace Ctbal

/-- Python's `needle in hay` on strings: contiguous-substring test. -/
def pyIn (needle hay : String) : Bool :=
  decide (needle.data <:+: hay.data)

/-- The characters of the final path component: everything after the last
path separator (`Path(...)` on Windows accepts both separators). -/
def afterLastSep (l : List Char) : List Char :=
  (l.reverse.takeWhile (fun c => c != '\\' && c != '/')).reverse

/-- `Path(name).stem`: the final component minus its last dot-suffix.  A dot
at index 0 does not start a suffix (`.csv` is its own stem). -/
def stemChars (name : List Char) : List Char :=
  if (name.drop 1).contains '.' then
    ((name.reverse.dropWhile (fun c => c != '.')).drop 1).reverse
  else name

/-- `Path(filename).stem.lower()` as computed at the top of
`extract_state_from_filename`. -/
def lowerStem (filename : String) : String :=
  ⟨(stemChars (afterLastSep filename.data)).map Char.toLower⟩

/-- The `state_patterns` dict of `extract_state_from_filename`, in its
insertion order (Python dicts iterate in insertion order). -/
def state_patterns : List (String × String) := [
  ("alabama", "Alabama"), ("alaska", "Alaska"), ("arizona", "Arizona"),
  ("arkansas", "Arkansas"), ("california", "California"), ("colorado", "Colorado"),
  ("connecticut", "Connecticut"), ("delaware", "Delaware"), ("florida", "Florida"),
  ("georgia", "Georgia"), ("hawaii", "Hawaii"), ("idaho", "Idaho"),
  ("illinois", "Illinois"), ("indiana", "Indiana"), ("iowa", "Iowa"),
  ("kansas", "Kansas"), ("kentucky", "Kentucky"), ("louisiana", "Louisiana"),
  ("maine", "Maine"), ("maryland", "Maryland"), ("massachusetts", "Massachusetts"),
  ("michigan", "Michigan"), ("minnesota", "Minnesota"), ("mississippi", "Mississippi"),
  ("missouri", "Missouri"), ("montana", "Montana"), ("nebraska", "Nebraska"),
  ("nevada", "Nevada"), ("newhampshire", "New Hampshire"), ("newjersey", "New Jersey"),
  ("newmexico", "New Mexico"), ("newyork", "New York"),
  ("northcarolina", "North Carolina"), ("northdakota", "North Dakota"),
  ("ohio", "Ohio"), ("oklahoma", "Oklahoma"), ("oregon", "Oregon"),
  ("pennsylvania", "Pennsylvania"), ("rhodeisland", "Rhode Island"),
  ("southcarolina", "South Carolina"), ("southdakota", "South Dakota"),
  ("tennessee", "Tennessee"), ("texas", "Texas"), ("utah", "Utah"),
  ("vermont", "Vermont"), ("virginia", "Virginia"), ("washington", "Washington"),
  ("westvirginia", "West Virginia"), ("wisconsin", "Wisconsin"),
  ("wyoming", "Wyoming")]

/-- The scan loop of `extract_state_from_filename`, run on the already
lowered stem: return the state name of the first table entry whose key is a
substring of the stem, else `"Unknown"`. -/
def extractFromStem (basename : String) : String :=
  match state_patterns.find? (fun q => pyIn q.1 basename) with
  | some q => q.2
  | none => "Unknown"

/-- `extract_state_from_filename` from `ctbal-scrape-integration.py`. -/
def extract_state_from_filename (filename : String) : String :=
  extractFromStem (lowerStem filename)

/-! ## Configured paths (module-level constants of the scripts) -/

def SCRAPE_A_GRAVE_PATH : String :=
  "c:\\Users\\djman\\OneDrive\\Documents\\GitHub\\scrape-a-grave"

def CTBAL_PROJECT_PATH : String :=
  "c:\\Users\\djman\\OneDrive\\Documents\\GitHub\\ctbal"

/-- `ctbal_project_path` of `add-processed-csvs-to-queue.py` (same string). -/
def ctbal_project_path : String := CTBAL_PROJECT_PATH

/-- `processed_csvs_path` of `add-processed-csvs-to-queue.py`. -/
def processed_csvs_path : String :=
  "c:\\Users\\djman\\OneDrive\\Documents\\GitHub\\scrape-a-grave\\processed_csvs"

/-! ## The `states` table of `add-processed-csvs-to-queue.py`
(abbreviation, name, location_id) in source order; the script's registry for
the prefix-code lookup. -/

def states20 : List (String × String × String) := [
  ("AL", "Alabama", "state_3"), ("AK", "Alaska", "state_2"),
  ("AZ", "Arizona", "state_5"), ("AR", "Arkansas", "state_4"),
  ("CA", "California", "state_6"), ("CO", "Colorado", "state_7"),
  ("CT", "Connecticut", "state_8"), ("DE", "Delaware", "state_10"),
  ("DC", "District of Columbia", "state_9"), ("FL", "Florida", "state_11"),
  ("GA", "Georgia", "state_12"), ("HI", "Hawaii", "state_13"),
  ("ID", "Idaho", "state_15"), ("IL", "Illinois", "state_16"),
  ("IN", "Indiana", "state_17"), ("IA", "Iowa", "state_14"),
  ("KS", "Kansas", "state_18"), ("KY", "Kentucky", "state_19"),
  ("LA", "Louisiana", "state_20"), ("ME", "Maine", "state_22")]

/-! ## External process boundary

`subprocess.run(cmd, shell=True, cwd=..., capture_output=True, ...)` either
completes with an exit status plus captured output streams, or raises (for
example when the shell cannot be started).  A `world` function maps each
issued invocation to its observed result. -/

/-- One `subprocess.run` call: the command line and the working directory it
is executed in. -/
structure Invocation where
  cmd : String
  cwd : String
deriving DecidableEq

/-- Result of one external invocation. -/
inductive RunResult where
  | completed (returncode : Int) (stdout stderr : String)
  | raised (msg : String)

/-- The invocation issued by `transfer_csv_to_queue`
(`cmd = f'npm run queue:add -- "{csv_file_path}"'`, `cwd=CTBAL_PROJECT_PATH`). -/
def transfer_invocation (csv_file_path : String) : Invocation :=
  ⟨"npm run queue:add -- \"" ++ csv_file_path ++ "\"", CTBAL_PROJECT_PATH⟩

/-- `transfer_csv_to_queue` from `ctbal-scrape-integration.py`: runs the
enqueue command once; `returncode == 0` yields `True`, any other exit status
yields `False`, and a raised exception is caught and yields `False`. -/
def transfer_csv_to_queue (world : Invocation → RunResult) (csv_file_path : String) : Bool :=
  match world (transfer_invocation csv_file_path) with
  | .completed rc _ _ => rc == 0
  | .raised _ => false

/-- The diagnostic text the dispatch reports: the captured error stream on a
non-zero exit status, the caught fault description on a raised exception,
nothing on success. -/
def transfer_diagnostic (res : RunResult) : Option String :=
  match res with
  | .completed rc _ err => if rc == 0 then none else some err
  | .raised msg => some msg

/-- The invocation issued by `add_csv_to_queue` in `add-all-new-csvs.py`:
same command line, but `cwd=os.getcwd()` — the caller's own current working
directory at the time of the call. -/
def add_csv_to_queue_invocation (callerCwd csv_file_path : String) : Invocation :=
  ⟨"npm run queue:add -- \"" ++ csv_file_path ++ "\"", callerCwd⟩

/-- `add_csv_to_queue` from `add-all-new-csvs.py` (the state abbreviation is
used only for progress printing, not for the outcome). -/
def add_csv_to_queue (world : Invocation → RunResult) (callerCwd : String)
    (csv_file_path _state_abbrev : String) : Bool :=
  match world (add_csv_to_queue_invocation callerCwd csv_file_path) with
  | .completed rc _ _ => rc == 0
  | .raised _ => false

/-- The invocation issued inside the loop of `add_processed_csvs_to_queue`
(`cmd = f'npm run queue:add "{csv_full_path}"'`, `cwd=ctbal_project_path`,
with `csv_full_path = os.path.join(processed_csvs_path, csv_file)`). -/
def proc_invocation (csv_file : String) : Invocation :=
  ⟨"npm run queue:add \"" ++ (processed_csvs_path ++ "\\" ++ csv_file) ++ "\"",
   ctbal_project_path⟩

/-- The dispatch step of one iteration of `add_processed_csvs_to_queue`'s
loop: run the enqueue once, classify by exit status; the surrounding
`try`/`except` catches any exception as a failure. -/
def proc_dispatch (world : Invocation → RunResult) (csv_file : String) : Bool :=
  match world (proc_invocation csv_file) with
  | .completed rc _ _ => rc == 0
  | .raised _ => false

/-! ## FileLocator (`find_state_csv_files`) -/

/-- Glob matching for the patterns the scripts use (literal characters and
`*`; the five patterns contain no other glob metacharacters).  `*` matches
any, possibly empty, character sequence. -/
def globMatch : List Char → List Char → Bool
  | [], s => s.isEmpty
  | '*' :: ps, s => s.tails.any (fun t => globMatch ps t)
  | _ :: _, [] => false
  | p :: ps, c :: cs => p == c && globMatch ps cs

/-- The five glob patterns of `find_state_csv_files`, in source order. -/
def patterns : List String := [
  "us_recent_deaths_*.csv", "*_deaths.csv", "deaths_*.csv",
  "mortality_*.csv", "*_mortality.csv"]

/-- `os.path.abspath(f)` for a bare file name `f` with current working
directory `cwd` (Windows path join). -/
def abspathIn (cwd f : String) : String := cwd ++ "\\" ++ f

/-- The pure part of `find_state_csv_files`, run after the `os.chdir`: glob
each pattern against the directory's contents in pattern order, concatenate
the matches, deduplicate (`list(set(csv_files))` — CPython set iteration
order is unspecified, modeled by `List.dedup`), and absolutize each
survivor against the directory the process just changed into.
`listing` is the contents of the scrape-a-grave directory. -/
def find_files (cwd : String) (listing : List String) : List String :=
  let csv_files := patterns.flatMap (fun pat =>
    listing.filter (fun f => globMatch pat.data f.data))
  let unique_files := csv_files.dedup
  unique_files.map (fun f => abspathIn cwd f)

/-- The process-wide mutable state the scripts touch: the current working
directory. -/
structure Proc where
  cwd : String
deriving DecidableEq

/-- `find_state_csv_files` from `ctbal-scrape-integration.py`, with the
`os.chdir(SCRAPE_A_GRAVE_PATH)` side effect explicit: if the configured
directory exists the process cwd permanently becomes that directory and the
glob scan runs there; if it does not exist, `os.chdir` raises
`FileNotFoundError` (the cwd is left unchanged and no scan happens). -/
def find_state_csv_files (scrapeExists : Bool) (listing : List String)
    (p : Proc) : Proc × Except String (List String) :=
  if scrapeExists then
    (⟨SCRAPE_A_GRAVE_PATH⟩, .ok (find_files SCRAPE_A_GRAVE_PATH listing))
  else
    (p, .error "FileNotFoundError")

/-! ## BatchOrchestrator (`batch_transfer_all_csvs` and the two scripts'
`main`-level loops) -/

/-- The printed transfer summary. -/
structure BatchSummary where
  succeeded : Nat
  failed : Nat
  total : Nat
deriving DecidableEq

/-- Observable trace of one `batch_transfer_all_csvs` run: the files handed
to the dispatcher in order, the per-file dispatch results in the same order,
and either the propagated locator exception or the (optional) printed
summary.  When the candidate set is empty the function prints a notice and
returns without a summary. -/
structure BatchReport where
  invoked : List String
  results : List Bool
  outcome : Except String (Option BatchSummary)

/-- `batch_transfer_all_csvs` from `ctbal-scrape-integration.py`.  The loop
body never breaks: each candidate is dispatched exactly once and
`success_count` counts the `True` results; the printed summary is
`(success_count, len - success_count, len)`. -/
def batch_transfer_all_csvs (world : Invocation → RunResult)
    (scrapeExists : Bool) (listing : List String) (p : Proc) :
    Proc × BatchReport :=
  match find_state_csv_files scrapeExists listing p with
  | (p', .error e) => (p', ⟨[], [], .error e⟩)
  | (p', .ok csv_files) =>
    if csv_files.isEmpty then (p', ⟨[], [], .ok none⟩)
    else
      let results := csv_files.map (fun f => transfer_csv_to_queue world f)
      let success_count := results.count true
      (p', ⟨csv_files, results,
        .ok (some ⟨success_count, csv_files.length - success_count,
                   csv_files.length⟩)⟩)

/-! ## `add-processed-csvs-to-queue.py` -/

/-- `csv_file.split('_')[0]`: the segment before the first underscore (the
whole string when it has none). -/
def proc_state_abbrev (csv_file : String) : String :=
  ⟨csv_file.data.takeWhile (fun c => c != '_')⟩

/-- The state-name lookup of one loop iteration: find the abbreviation in
the `states` table; on a miss the raw abbreviation itself is used as the
name (`state_info['name'] if state_info else state_abbrev`). -/
def proc_state_name (csv_file : String) : String :=
  match states20.find? (fun s => s.1 == proc_state_abbrev csv_file) with
  | some s => s.2.1
  | none => proc_state_abbrev csv_file

/-- Python's `str.endswith`. -/
def pyEndsWith (suffix s : String) : Bool :=
  decide (suffix.data <:+ s.data)

/-- Observable trace of one `add_processed_csvs_to_queue` run.
`locator_error` records the early return on a missing
`processed_csvs_path`. -/
structure ProcReport where
  locator_error : Bool
  invoked : List String
  results : List Bool
  summary : Option BatchSummary
deriving DecidableEq

/-- `add_processed_csvs_to_queue` from `add-processed-csvs-to-queue.py`:
validate that the processed-CSVs directory exists (a missing directory is
reported and the function returns before any dispatch and before any
summary); filter the listing to `*_us_recent_deaths.csv` files; dispatch
each file once in `sorted` order; print
`(success_count, len - success_count, len)`. -/
def add_processed_csvs_to_queue (world : Invocation → RunResult)
    (dirExists : Bool) (listing : List String) : ProcReport :=
  if dirExists then
    let csv_files := listing.filter (fun f =>
      pyEndsWith ".csv" f && pyIn "_us_recent_deaths.csv" f)
    let sorted_files := csv_files.insertionSort (· ≤ ·)
    let results := sorted_files.map (fun f => proc_dispatch world f)
    let success_count := results.count true
    ⟨false, sorted_files, results,
     some ⟨success_count, csv_files.length - success_count, csv_files.length⟩⟩
  else
    ⟨true, [], [], none⟩

/-! ## `add-all-new-csvs.py` -/

/-- `os.path.basename`. -/
def basenameOf (s : String) : String := ⟨afterLastSep s.data⟩

/-- The abbreviation extraction of `main` in `add-all-new-csvs.py`:
`filename.split('_')[0] if '_' in filename else 'UNK'`. -/
def addall_state_abbrev (filename : String) : String :=
  if pyIn "_" filename then ⟨filename.data.takeWhile (fun c => c != '_')⟩
  else "UNK"

/-- Observable trace of one run of `main` in `add-all-new-csvs.py`; this
orchestrator always prints a summary, `(added, failed, added + failed)`. -/
structure AddAllReport where
  invoked : List String
  results : List Bool
  summary : BatchSummary
deriving DecidableEq

/-- `main` from `add-all-new-csvs.py`, from the point where `glob.glob` has
produced `csv_files` (the `*.csv` paths of the processed directory):
dispatch every file in `sorted` order, counting successes and failures
separately. -/
def addall_main (world : Invocation → RunResult) (callerCwd : String)
    (csv_files : List String) : AddAllReport :=
  let sorted_files := csv_files.insertionSort (· ≤ ·)
  let results := sorted_files.map (fun f =>
    add_csv_to_queue world callerCwd f (addall_state_abbrev (basenameOf f)))
  let added_count := results.count true
  let failed_count := results.count false
  ⟨sorted_files, results, ⟨added_count, failed_count, added_count + failed_count⟩⟩

end Ctbal
set_option maxRecDepth 8000

namespace Ctbal

/-! ## Shared helper lemmas -/

theorem pyIn_true_iff {needle hay : String} :
    pyIn needle hay = true ↔ needle.data <:+: hay.data := by
  simp [pyIn]

theorem singleton_infix_iff {a : Char} {l : List Char} : [a] <:+: l ↔ a ∈ l := by
  constructor
  · rintro ⟨s, t, rfl⟩
    simp
  · intro h
    obtain ⟨s, t, rfl⟩ := List.append_of_mem h
    exact ⟨s, t, by simp⟩

theorem takeWhile_ne_underscore_eq_self {l : List Char} (h : '_' ∉ l) :
    l.takeWhile (fun c => c != '_') = l := by
  induction l with
  | nil => rfl
  | cons c t ih =>
    have hc : (c != '_') = true := by
      simp only [bne_iff_ne, ne_eq]
      exact fun e => h (e ▸ List.mem_cons_self c t)
    rw [List.takeWhile_cons_of_pos (p := fun x => x != '_') hc,
      ih (fun hm => h (List.mem_cons_of_mem _ hm))]

theorem count_true_add_count_false (l : List Bool) :
    l.count true + l.count false = l.length := by
  induction l with
  | nil => rfl
  | cons b t ih => cases b <;> simp [List.count_cons] <;> omega

theorem abspathIn_injective (cwd : String) : Function.Injective (abspathIn cwd) := by
  intro a b h
  apply String.ext
  have h' := congrArg String.data h
  simp only [abspathIn, String.data_append, List.append_assoc] at h'
  exact List.append_cancel_left (List.append_cancel_left h')

/-! ## C1 -/

/-- C1 (counterexample): the claim predicts that a filename whose stem begins
with a registered jurisdiction code followed by a delimiter resolves to that
code's record, the prefix-code heuristic being tried before the
substring-name heuristic.  The code has no prefix-code tier in
`extract_state_from_filename`: `FL` is registered (in the `states` table of
`add-processed-csvs-to-queue.py`) yet `FL_..._us_recent_deaths.csv` resolves
to `Unknown`, and `iowa_california_deaths.csv`, whose stem begins with the
registered key `iowa` plus delimiter, resolves to `California` (the first
table key occurring anywhere in the stem), not `Iowa`. -/
theorem ctbal_C1_counterexample :
    extract_state_from_filename "FL_20251118_210521_us_recent_deaths.csv" = "Unknown" ∧
    ("FL", "Florida", "state_11") ∈ states20 ∧
    extract_state_from_filename "iowa_california_deaths.csv" = "California" ∧
    ("iowa", "Iowa") ∈ state_patterns :=
  ⟨by decide, by decide, by decide, by decide⟩

/-- C1 (amended): `extract_state_from_filename` applies only the
substring-display-name heuristic, scanning the fixed table in insertion
order; it never raises.  A stem that begins with a registered table key
followed by the `_` delimiter always resolves to some registered display
name (never `Unknown`), though not necessarily to the prefix key's own
record; and a filename none of whose table keys occur in the stem resolves
to the `Unknown` sentinel. -/
theorem ctbal_C1_amended :
    (∀ (k v : String) (rest : List Char), (k, v) ∈ state_patterns →
      extractFromStem ⟨k.data ++ '_' :: rest⟩ ∈ state_patterns.map Prod.snd) ∧
    (∀ b : String, (∀ q ∈ state_patterns, pyIn q.1 b = false) →
      extractFromStem b = "Unknown") := by
  constructor
  · intro k v rest hmem
    have hpred : pyIn k ⟨k.data ++ '_' :: rest⟩ = true := by
      apply decide_eq_true
      exact ⟨[], '_' :: rest, by simp⟩
    have hsome : (state_patterns.find? (fun q => pyIn q.1 ⟨k.data ++ '_' :: rest⟩)).isSome := by
      rw [List.find?_isSome]
      exact ⟨(k, v), hmem, hpred⟩
    obtain ⟨q, hq⟩ := Option.isSome_iff_exists.mp hsome
    have hqmem := List.mem_of_find?_eq_some hq
    unfold extractFromStem
    rw [hq]
    exact List.mem_map_of_mem Prod.snd hqmem
  · intro b hall
    have hnone : state_patterns.find? (fun q => pyIn q.1 b) = none := by
      rw [List.find?_eq_none]
      intro q hq
      simp [hall q hq]
    unfold extractFromStem
    rw [hnone]

/-- C1 amended, witnessed at concrete inputs: a stem starting with the
registered key `iowa` plus delimiter resolves to a registered display name,
and a stem containing no key resolves to `Unknown`. -/
theorem ctbal_C1_amended_witness :
    extractFromStem ⟨"iowa".data ++ '_' :: "california".data⟩ ∈ state_patterns.map Prod.snd ∧
    extractFromStem "zzz" = "Unknown" :=
  ⟨ctbal_C1_amended.1 "iowa" "Iowa" "california".data (by decide),
   ctbal_C1_amended.2 "zzz" (by decide)⟩


/-! ## C3 -/

/-- C3: for every directory contents and every current directory, the
candidate list `find_state_csv_files` builds is duplicate-free: even when
two or more of the five glob patterns match the same file, that file's
absolute path occurs exactly once in the returned list, so each file is
handed to the dispatcher at most once per batch. -/
theorem ctbal_C3_dedup :
    (∀ cwd listing, (find_files cwd listing).Nodup) ∧
    ∀ cwd listing f, f ∈ find_files cwd listing →
      (find_files cwd listing).count f = 1 := by
  have hnd : ∀ cwd listing, (find_files cwd listing).Nodup := by
    intro cwd listing
    exact (List.nodup_dedup _).map (abspathIn_injective cwd)
  exact ⟨hnd, fun cwd listing f hf => List.count_eq_one_of_mem (hnd cwd listing) hf⟩

/-- C3 witnessed at a file matched by two of the glob patterns
(`*_deaths.csv` and `deaths_*.csv`): it still occurs exactly once. -/
theorem ctbal_C3_dedup_witness :
    (find_files SCRAPE_A_GRAVE_PATH ["deaths_x_deaths.csv"]).count
      (abspathIn SCRAPE_A_GRAVE_PATH "deaths_x_deaths.csv") = 1 :=
  ctbal_C3_dedup.2 SCRAPE_A_GRAVE_PATH ["deaths_x_deaths.csv"] _ (by decide)

/-! ## C2 -/

/-- C2: for every world of dispatch outcomes (any mix of successes and
failures), `batch_transfer_all_csvs` hands every located candidate to the
dispatcher (the invoked list is exactly the candidate list and the result
list has the same length — an individual failure never aborts the rest),
and whenever a summary is printed it satisfies
`succeeded + failed = total` with `total` the number of candidates; the
batch loop of `add-all-new-csvs.py` likewise produces one result per
candidate file and a summary with `succeeded + failed = total`. -/
theorem batch_transfer_true_eq (world : Invocation → RunResult)
    (listing : List String) (p : Proc) :
    batch_transfer_all_csvs world true listing p =
      if (find_files SCRAPE_A_GRAVE_PATH listing).isEmpty then
        (⟨SCRAPE_A_GRAVE_PATH⟩, ⟨[], [], .ok none⟩)
      else
        (⟨SCRAPE_A_GRAVE_PATH⟩,
         ⟨find_files SCRAPE_A_GRAVE_PATH listing,
          (find_files SCRAPE_A_GRAVE_PATH listing).map
            (fun f => transfer_csv_to_queue world f),
          .ok (some ⟨((find_files SCRAPE_A_GRAVE_PATH listing).map
              (fun f => transfer_csv_to_queue world f)).count true,
            (find_files SCRAPE_A_GRAVE_PATH listing).length -
              ((find_files SCRAPE_A_GRAVE_PATH listing).map
                (fun f => transfer_csv_to_queue world f)).count true,
            (find_files SCRAPE_A_GRAVE_PATH listing).length⟩)⟩) := rfl

/-- C2: for every world of dispatch outcomes (any mix of successes and
failures), `batch_transfer_all_csvs` hands every located candidate to the
dispatcher (the invoked list is exactly the candidate list and the result
list has one entry per candidate — an individual failure never aborts the
rest), and whenever a summary is printed it satisfies
`succeeded + failed = total` with `total` the number of candidates; the
batch loop of `add-all-new-csvs.py` likewise produces one result per
candidate file and a summary with `succeeded + failed = total`. -/
theorem ctbal_C2_accounting :
    (∀ world listing p,
      (batch_transfer_all_csvs world true listing p).2.invoked =
        find_files SCRAPE_A_GRAVE_PATH listing ∧
      (batch_transfer_all_csvs world true listing p).2.results.length =
        (find_files SCRAPE_A_GRAVE_PATH listing).length ∧
      ∀ s, (batch_transfer_all_csvs world true listing p).2.outcome =
          .ok (some s) →
        s.succeeded + s.failed = s.total ∧
        s.total = (find_files SCRAPE_A_GRAVE_PATH listing).length) ∧
    ∀ world callerCwd csv_files,
      (addall_main world callerCwd csv_files).results.length = csv_files.length ∧
      (addall_main world callerCwd csv_files).summary.succeeded +
          (addall_main world callerCwd csv_files).summary.failed =
        (addall_main world callerCwd csv_files).summary.total ∧
      (addall_main world callerCwd csv_files).summary.total = csv_files.length := by
  constructor
  · intro world listing p
    rw [batch_transfer_true_eq]
    by_cases h : (find_files SCRAPE_A_GRAVE_PATH listing).isEmpty
    · rw [if_pos h]
      rw [List.isEmpty_iff] at h
      refine ⟨h.symm, by simp [h], ?_⟩
      intro s hs
      exact absurd hs (by simp)
    · rw [if_neg h]
      refine ⟨rfl, by simp, ?_⟩
      intro s hs
      simp only [Except.ok.injEq, Option.some.injEq] at hs
      subst hs
      have hle : ((find_files SCRAPE_A_GRAVE_PATH listing).map
          (fun f => transfer_csv_to_queue world f)).count true ≤
          (find_files SCRAPE_A_GRAVE_PATH listing).length := by
        simpa using List.count_le_length true
          ((find_files SCRAPE_A_GRAVE_PATH listing).map
            (fun f => transfer_csv_to_queue world f))
      exact ⟨Nat.add_sub_cancel' hle, rfl⟩
  · intro world callerCwd csv_files
    refine ⟨?_, rfl, ?_⟩
    · show ((csv_files.insertionSort (· ≤ ·)).map _).length = _
      rw [List.length_map, List.length_insertionSort]
    · show ((csv_files.insertionSort (· ≤ ·)).map _).count true +
          ((csv_files.insertionSort (· ≤ ·)).map _).count false = _
      rw [count_true_add_count_false, List.length_map, List.length_insertionSort]

/-- C2 witnessed on a concrete three-file batch in which the middle dispatch
fails: the printed summary is a faithful accounting. -/
theorem ctbal_C2_accounting_witness :
    (2 : Nat) + 1 = 3 ∧
    (3 : Nat) = (find_files SCRAPE_A_GRAVE_PATH
      ["al_deaths.csv", "ak_deaths.csv", "az_deaths.csv"]).length :=
  (ctbal_C2_accounting.1 (fun inv =>
      if pyIn "ak_deaths" inv.cmd then .raised "FileNotFoundError"
      else .completed 0 "ok" "")
    ["al_deaths.csv", "ak_deaths.csv", "az_deaths.csv"] ⟨"C:\\"⟩).2.2
    ⟨2, 1, 3⟩ rfl

/-! ## C4 -/

/-- C4: a dispatch outcome is classified solely by the external enqueue
operation's exit status — exit status zero yields success whatever the
captured output text, any non-zero status yields failure carrying the
captured error stream, and an operation that cannot be started at all
(a raised exception) yields failure carrying the fault description; the
dispatcher makes exactly one external invocation per call (no internal
retry), and in a concrete batch of three files where one enqueue cannot
start, the printed summary is succeeded=2, failed=1, total=3. -/
theorem ctbal_C4_classification :
    (∀ world path rc out err, world (transfer_invocation path) = .completed rc out err →
      (transfer_csv_to_queue world path = true ↔ rc = 0)) ∧
    (∀ world path msg, world (transfer_invocation path) = .raised msg →
      transfer_csv_to_queue world path = false) ∧
    (∀ rc out err, rc ≠ 0 → transfer_diagnostic (.completed rc out err) = some err) ∧
    (∀ msg, transfer_diagnostic (.raised msg) = some msg) ∧
    (∀ out err, transfer_diagnostic (.completed 0 out err) = none) ∧
    (batch_transfer_all_csvs (fun inv =>
        if pyIn "ak_deaths" inv.cmd then .raised "FileNotFoundError"
        else .completed 0 "ok" "")
      true ["al_deaths.csv", "ak_deaths.csv", "az_deaths.csv"] ⟨"C:\\"⟩).2.outcome =
      .ok (some ⟨2, 1, 3⟩) := by
  refine ⟨?_, ?_, ?_, fun _ => rfl, fun _ _ => rfl, rfl⟩
  · intro world path rc out err h
    unfold transfer_csv_to_queue
    rw [h]
    simp
  · intro world path msg h
    unfold transfer_csv_to_queue
    rw [h]
  · intro rc out err h
    unfold transfer_diagnostic
    simp [h]

/-- C4 witnessed at concrete outcomes: a zero exit status is success, a
raised start failure is failure, a non-zero status carries the error
stream. -/
theorem ctbal_C4_classification_witness :
    (transfer_csv_to_queue (fun _ => .completed 0 "ok" "") "x.csv" = true ↔ (0 : Int) = 0) ∧
    transfer_csv_to_queue (fun _ => .raised "cannot start") "x.csv" = false ∧
    transfer_diagnostic (.completed 1 "" "err text") = some "err text" :=
  ⟨ctbal_C4_classification.1 _ "x.csv" 0 "ok" "" rfl,
   ctbal_C4_classification.2.1 _ "x.csv" "cannot start" rfl,
   ctbal_C4_classification.2.2.1 1 "" "err text" (by decide)⟩

/-! ## C5 -/

/-- C5: which working directory each script hands to `subprocess.run` for
the enqueue command.  `transfer_csv_to_queue` and the loop of
`add_processed_csvs_to_queue` always pass the configured ctbal project
root; but `add_csv_to_queue` in `add-all-new-csvs.py` passes
`os.getcwd()` — the caller's own current working directory — which differs
from the configured queue root whenever the script is launched from
anywhere else, contradicting the claim that every enqueue invocation runs
in the queue system's configured root. -/
theorem ctbal_C5_cwd :
    (∀ path, (transfer_invocation path).cwd = CTBAL_PROJECT_PATH) ∧
    (∀ csv_file, (proc_invocation csv_file).cwd = CTBAL_PROJECT_PATH) ∧
    (∀ callerCwd path, (add_csv_to_queue_invocation callerCwd path).cwd = callerCwd) ∧
    (add_csv_to_queue_invocation "C:\\Users\\djman" "mystery.csv").cwd ≠
      CTBAL_PROJECT_PATH :=
  ⟨fun _ => rfl, fun _ => rfl, fun _ _ => rfl, by decide⟩

/-! ## C6 -/

/-- C6 (counterexample): `batch_transfer_all_csvs` iterates the candidate
list in the order produced by `list(set(...))` — an unspecified set
iteration order (modeled by `List.dedup` order), with no `sorted()` call;
on a directory containing `zz_deaths.csv` and `aa_mortality.csv` the files
are dispatched in the order the patterns matched them, which is not sorted
order of their paths. -/
theorem ctbal_C6_counterexample :
    ¬ List.Sorted (· ≤ ·)
      ((batch_transfer_all_csvs (fun _ => .completed 0 "" "") true
        ["zz_deaths.csv", "aa_mortality.csv"] ⟨"C:\\"⟩).2.invoked) := by
  intro hs
  have hinv : (batch_transfer_all_csvs (fun _ => .completed 0 "" "") true
      ["zz_deaths.csv", "aa_mortality.csv"] ⟨"C:\\"⟩).2.invoked =
      [abspathIn SCRAPE_A_GRAVE_PATH "zz_deaths.csv",
       abspathIn SCRAPE_A_GRAVE_PATH "aa_mortality.csv"] := rfl
  rw [hinv] at hs
  have hle := List.rel_of_sorted_cons hs _ (List.mem_singleton.mpr rfl)
  rw [String.le_iff_toList_le] at hle
  exact absurd hle (by decide)

/-- C6 (amended): the orchestrators of `add-all-new-csvs.py` and
`add-processed-csvs-to-queue.py` dispatch their candidate files in sorted
order of their paths (deterministic for fixed directory contents);
`batch_transfer_all_csvs` in `ctbal-scrape-integration.py` does not sort
and processes the candidates in the set-iteration order of its locator. -/
theorem ctbal_C6_amended :
    (∀ world callerCwd csv_files,
      List.Sorted (· ≤ ·) (addall_main world callerCwd csv_files).invoked) ∧
    ∀ world listing,
      List.Sorted (· ≤ ·) (add_processed_csvs_to_queue world true listing).invoked := by
  constructor
  · intro world callerCwd csv_files
    exact List.sorted_insertionSort _ _
  · intro world listing
    exact List.sorted_insertionSort _ _

/-! ## C7 -/

/-- C7: when a configured root directory does not exist, the failure is
locator-level and is reported before any dispatch attempt, and no batch
summary is produced: `add_processed_csvs_to_queue` returns right after the
existence check (no dispatches, no summary), and in
`ctbal-scrape-integration.py` the failed `os.chdir` raises out of
`find_state_csv_files`, so `batch_transfer_all_csvs` propagates the
exception with no dispatches and no summary.  Both are distinct from the
zero-files case, in which the locator succeeds (and the processed-CSVs
script still prints a, then trivial, summary). -/
theorem ctbal_C7_missing_root :
    (∀ world listing,
      add_processed_csvs_to_queue world false listing = ⟨true, [], [], none⟩) ∧
    (∀ world, (add_processed_csvs_to_queue world true []).locator_error = false ∧
      (add_processed_csvs_to_queue world true []).summary = some ⟨0, 0, 0⟩) ∧
    (∀ world listing p,
      batch_transfer_all_csvs world false listing p =
        (p, ⟨[], [], .error "FileNotFoundError"⟩)) ∧
    ∀ world p, (batch_transfer_all_csvs world true [] p).2.outcome = .ok none :=
  ⟨fun _ _ => rfl, fun _ => ⟨rfl, rfl⟩, fun _ _ _ => rfl, fun _ _ => rfl⟩

/-! ## C8 -/

/-- C8 (counterexample): for the delimiterless filename `mystery.csv` the
claim predicts the whole stem `mystery` as candidate code and an `Unknown`
classification on the lookup miss.  The code instead: `add-all-new-csvs.py`
labels the file `UNK` directly without treating the stem as a code, and
`add-processed-csvs-to-queue.py` takes the whole filename, extension
included, as the candidate and uses that raw token, not `Unknown`, as the
state name. -/
theorem ctbal_C8_counterexample :
    addall_state_abbrev "mystery.csv" = "UNK" ∧ "UNK" ≠ "mystery" ∧
    proc_state_abbrev "mystery.csv" = "mystery.csv" ∧ "mystery.csv" ≠ "mystery" ∧
    proc_state_name "mystery.csv" = "mystery.csv" ∧ "mystery.csv" ≠ "Unknown" :=
  ⟨by decide, by decide, by decide, by decide, by decide, by decide⟩

/-- C8 (amended): a filename with no `_` delimiter never crashes the
resolution step: `add-processed-csvs-to-queue.py` treats the whole
filename (extension included) as the candidate code and, when that
candidate misses the registry, gracefully uses the raw candidate itself as
the display name; `add-all-new-csvs.py` classifies such filenames directly
with the `UNK` sentinel. -/
theorem ctbal_C8_amended :
    ∀ f : String, pyIn "_" f = false →
      proc_state_abbrev f = f ∧
      addall_state_abbrev f = "UNK" ∧
      (states20.find? (fun s => s.1 == f) = none → proc_state_name f = f) := by
  intro f h
  have hinf : ¬ ("_".data <:+: f.data) := of_decide_eq_false h
  have hnotmem : '_' ∉ f.data := fun hm => hinf (singleton_infix_iff.mpr hm)
  have habbrev : proc_state_abbrev f = f := by
    unfold proc_state_abbrev
    rw [takeWhile_ne_underscore_eq_self hnotmem]
  refine ⟨habbrev, ?_, ?_⟩
  · simp [addall_state_abbrev, h]
  · intro hfind
    unfold proc_state_name
    rw [habbrev, hfind]

/-- C8 amended, witnessed at `mystery.csv`. -/
theorem ctbal_C8_amended_witness :
    proc_state_abbrev "mystery.csv" = "mystery.csv" ∧
    addall_state_abbrev "mystery.csv" = "UNK" ∧
    proc_state_name "mystery.csv" = "mystery.csv" := by
  have h := ctbal_C8_amended "mystery.csv" (by decide)
  exact ⟨h.1, h.2.1, h.2.2 (by decide)⟩

/-! ## C9 -/

/-- C9 (counterexample): the claim predicts that every stem containing
`westvirginia` resolves to `Virginia`; but the scan returns the first
matching key in table insertion order, so a stem that also contains an
earlier key — here `alabama` — resolves to that key's record instead. -/
theorem ctbal_C9_counterexample :
    pyIn "westvirginia" (lowerStem "alabama_westvirginia_deaths.csv") = true ∧
    extract_state_from_filename "alabama_westvirginia_deaths.csv" = "Alabama" ∧
    "Alabama" ≠ "Virginia" :=
  ⟨by decide, by decide, by decide⟩

/-- C9 (amended): the substring scan runs in the table's fixed insertion
order, in which `virginia` precedes `westvirginia` and is a substring of
it, so no stem whatsoever resolves to `West Virginia`; a stem containing
`westvirginia` resolves to the first table key it contains — `Virginia`
when, as in `westvirginia_deaths.csv`, no earlier key occurs. -/
theorem ctbal_C9_amended :
    (∀ b : String, pyIn "westvirginia" b = true →
      extractFromStem b ≠ "West Virginia") ∧
    extract_state_from_filename "westvirginia_deaths.csv" = "Virginia" := by
  constructor
  · intro b hwv heq
    have hvb : pyIn "virginia" b = true := by
      apply decide_eq_true
      have h1 : "virginia".data <:+: "westvirginia".data := by decide
      exact h1.trans (of_decide_eq_true hwv)
    have hsome : ((state_patterns.take 47).find? (fun q => pyIn q.1 b)).isSome := by
      rw [List.find?_isSome]
      exact ⟨("virginia", "Virginia"), by decide, hvb⟩
    obtain ⟨q, hq⟩ := Option.isSome_iff_exists.mp hsome
    have hmem := List.mem_of_find?_eq_some hq
    have hfind : state_patterns.find? (fun q => pyIn q.1 b) = some q := by
      conv_lhs => rw [(List.take_append_drop 47 state_patterns).symm]
      rw [List.find?_append, hq]
      rfl
    have hex : extractFromStem b = q.2 := by
      unfold extractFromStem
      rw [hfind]
    rw [hex] at heq
    have hne : ∀ x ∈ state_patterns.take 47, x.2 ≠ "West Virginia" := by decide
    exact hne q hmem heq
  · decide

/-- C9 amended, witnessed at a concrete stem containing `westvirginia`. -/
theorem ctbal_C9_amended_witness :
    extractFromStem "xwestvirginia" ≠ "West Virginia" :=
  ctbal_C9_amended.1 "xwestvirginia" (by decide)

/-! ## C10 -/

/-- C10: `find_state_csv_files` is not side-effect-free: it performs
`os.chdir(SCRAPE_A_GRAVE_PATH)` before globbing, so after a successful call
the process-wide current working directory is the scrape source root — a
lasting change whenever the process started elsewhere — and every
relative path resolved later in the same process is resolved against that
directory. -/
theorem ctbal_C10_chdir :
    ∀ (p : Proc) (listing : List String) (rel : String),
      ((find_state_csv_files true listing p).1).cwd = SCRAPE_A_GRAVE_PATH ∧
      (p.cwd ≠ SCRAPE_A_GRAVE_PATH → (find_state_csv_files true listing p).1 ≠ p) ∧
      abspathIn ((find_state_csv_files true listing p).1).cwd rel =
        SCRAPE_A_GRAVE_PATH ++ "\\" ++ rel := by
  intro p listing rel
  refine ⟨rfl, ?_, rfl⟩
  intro hne heq
  exact hne (congrArg Proc.cwd heq).symm

/-- C10 witnessed: a process that starts in the ctbal project directory is
left in the scrape-a-grave directory by the locator. -/
theorem ctbal_C10_chdir_witness :
    (find_state_csv_files true ["x.csv"] ⟨CTBAL_PROJECT_PATH⟩).1 ≠
      ⟨CTBAL_PROJECT_PATH⟩ :=
  (ctbal_C10_chdir ⟨CTBAL_PROJECT_PATH⟩ ["x.csv"] "y.csv").2.1 (by decide)

end Ctbal
